import Mathlib

/-!
Verification development for the SighthoundVideo Launch Supervisor
(`src/launch/shlaunchMac/shlaunchMac/shlaunch.c`,
`src/launch/shlaunchWin/shlaunch/shlaunch.c`) and its client library
(`src/launch/launch.c`).

The C code is shallowly embedded: C strings become `List Char`, machine
integers become `Nat` (32-bit patterns, masks applied explicitly) or `Int`,
the shared-memory `struct Exchange` becomes the structure `Exch`, and each
loop body or helper function becomes an executable Lean function that
mirrors the C control flow.  Platform-specific code lives in the `Mac` and
`Win` namespaces.
-/

/-- `LAUNCH_MASK` from both `shlaunch.h` headers: low 16 bits of the launch
word carry the launch code. -/
def LAUNCH_MASK : Nat := 0xffff

/-- `LAUNCH_FLAG_KILL_FIRST` from both `shlaunch.h` headers: bit 16 of the
launch word requests a kill of the old processes first. -/
def LAUNCH_FLAG_KILL_FIRST : Nat := 0x10000

/-- Bitwise complement of a mask within a 32-bit word, as produced by C `~m`
on a 32-bit integer (the embedding keeps 32-bit values as `Nat` < 2^32). -/
def not32 (m : Nat) : Nat := 0xFFFFFFFF ^^^ m

/-- C `strncmp(a, b, n) == 0` on NUL-terminated strings modelled as
`List Char` (the end of the list is the NUL); the character budget `n` comes
first so that the recursion is driven by it. -/
def strncmp_is0 : Nat → List Char → List Char → Bool
  | 0, _, _ => true
  | _ + 1, [], [] => true
  | _ + 1, [], _ :: _ => false
  | _ + 1, _ :: _, [] => false
  | n + 1, a :: as, b :: bs => a == b && strncmp_is0 n as bs

/-- ASCII lower-casing of one character, the behaviour `_tcsicmp` relies on
for the identifiers compared in this code base. -/
def asciiLower (c : Char) : Char :=
  if 65 ≤ c.toNat ∧ c.toNat ≤ 90 then Char.ofNat (c.toNat + 32) else c

/-- C `_tcsicmp(a, b) == 0`: case-insensitive string equality. -/
def tcsicmp_is0 (a b : List Char) : Bool :=
  a.map asciiLower == b.map asciiLower

/-- The shared-memory `struct Exchange` (field widths per the two headers;
the 32-bit fields are kept as `Nat` bit patterns, `launchProcessId` as the
signed value the clients store). -/
structure Exch where
  size : Nat
  cycles : Nat
  processId : Nat
  status : Nat
  launchProcessId : Int
  launch : Nat
  shutdown : Nat
deriving DecidableEq, Repr

/-- macOS `PATH_MAX` (limits.h), used by the Mac `struct Exchange`. -/
def PATH_MAX : Nat := 1024

/-- Windows `MAX_PATH`, used by the Win `struct Exchange`. -/
def MAX_PATH : Nat := 260

/-- Byte size of the packed Mac `struct Exchange`: seven 32-bit fields,
`char build[8]`, `wchar_t dataDir[PATH_MAX]` (4-byte `wchar_t`), and the
`_pad16` array of `(PATH_MAX*2 + 8 + 5*4)/16` bytes, exactly as declared in
`shlaunchMac/shlaunch.h`. -/
def sizeofExchange_mac : Nat :=
  4 + 4 + 4 + 4 + 4 + 4 + 4 + 8 + 4 * PATH_MAX + (PATH_MAX * 2 + 8 * 1 + 5 * 4) / 16

/-- Byte size of the packed Win `struct Exchange`: seven 32-bit fields and
`TCHAR dataDir[MAX_PATH]` (2-byte `TCHAR`), per `shlaunchWin/shlaunch.h`. -/
def sizeofExchange_win : Nat := 4 + 4 + 4 + 4 + 4 + 4 + 4 + 2 * MAX_PATH

/-- Size of a data pointer in the 32-bit Windows build (the service is
32-bit; see the comment about error 299 for 64-bit processes). -/
def sizeof_ptr_win32 : Nat := 4

/-- The size argument the Mac service passes to `shmget` in
`exchange_open`: `sizeof(struct Exchange)`. -/
def mac_shmget_size : Nat := sizeofExchange_mac

/-- The `dwMaximumSizeLow` argument the Win service passes to
`CreateFileMapping` in `svc_main`: the C expression is `sizeof(exchange)`
where `exchange` is a `struct Exchange*` local, i.e. the size of a pointer,
not of the structure. -/
def win_CreateFileMapping_size : Nat := sizeof_ptr_win32

/-- The attach loop of the client in `launch_open` (`launch.c`): after reading an
initial `cycles` value `c0`, the loop runs
`while (size != sizeof(struct Exchange) && cycles == c0)`, sleeping between
polls until a deadline.  The list holds the Exchange contents seen at the
successive polls (an exhausted list is the deadline expiring); the result is
`true` when `launch_open` returns a handle, `false` when it fails. -/
def launch_open_poll (expected c0 : Nat) : List Exch → Bool
  | [] => false
  | o :: rest =>
    if o.size ≠ expected ∧ o.cycles = c0 then launch_open_poll expected c0 rest
    else true

namespace Mac

/-- Exit code `RET_SUCCESS` (Mac). -/
def RET_SUCCESS : Int := 0

/-- Exit code `RET_ERROR` (Mac). -/
def RET_ERROR : Int := 1

/-- Exit code `RET_ARGS_ERROR` (Mac). -/
def RET_ARGS_ERROR : Int := 4

/-- Exit code `RET_BUILD_MISMATCH` (Mac). -/
def RET_BUILD_MISMATCH : Int := 5

/-- `MAX_PROCESSES` (Mac): capacity of `FindProcessesContext.pids`. -/
def MAX_PROCESSES : Nat := 256

/-- `SIGHTHOUND_PROCESS_NAMES` (Mac): names the reaper targets, NULL
terminator dropped. -/
def SIGHTHOUND_PROCESS_NAMES : List String :=
  [ "Sighthound Video", "shlaunch"]

/-- One entry of the Mac process enumeration (`enum_processes` hands the
handler `uid`, `pid`, `ppid` and the command name). -/
structure KProc where
  uid : Int
  pid : Int
  ppid : Int
  comm : String
deriving DecidableEq, Repr

/-- `is_sv_process` (Mac): `strcmp` of the command against each entry of
`SIGHTHOUND_PROCESS_NAMES`. -/
def is_sv_process (comm : String) : Bool :=
  SIGHTHOUND_PROCESS_NAMES.any (fun n => n == comm)

/-- The enumeration run of `enum_processes(find_handler, &fpctx)` (Mac):
`find_handler` records the PID of every Sighthound process while fewer than
`MAX_PROCESSES` are stored, and otherwise aborts the enumeration by
returning `-2`.  The result is the recorded PID list (the `fpctx.pids`
array, `acc` being the portion filled so far) together with the value
`enum_processes` returns. -/
def find_handler_run : List KProc → List Int → List Int × Int
  | [], acc => (acc, 0)
  | p :: rest, acc =>
    if is_sv_process p.comm then
      if acc.length < MAX_PROCESSES then find_handler_run rest (acc ++ [p.pid])
      else (acc, -2)
    else find_handler_run rest acc

/-- PIDs of all Sighthound-named processes in enumeration order. -/
def svPids (procs : List KProc) : List Int :=
  (procs.filter (fun p => is_sv_process p.comm)).map (fun p => p.pid)

/-- `kill_old_processes` (Mac), projected to the set of PIDs that receive
`SIGKILL`: the recorded PIDs are sorted (`qsort`), and each one is signalled
unless it equals `getpid()`, `getppid()`, the global `_noKillPid`, or the
`noKillPid` argument. -/
def kill_old_processes (ownPid parentPid noKillPidGlobal noKillPid : Int)
    (procs : List KProc) : List Int :=
  let pids := (find_handler_run procs []).1
  let sorted := pids.mergeSort (fun a b => a ≤ b)
  sorted.filter (fun pid =>
    !(ownPid == pid || parentPid == pid || noKillPidGlobal == pid || noKillPid == pid))

end Mac

/-- `struct SHLaunchConfig` (Mac) / `struct Config` (Win): the two booleans
read from the configuration file. -/
structure SHLaunchConfig where
  autoStart : Bool
  backend : Bool
deriving DecidableEq, Repr

/-- `_cfgDefault` (Mac): `{ false, true }`; the Win defaults coincide. -/
def cfgDefault : SHLaunchConfig := ⟨false, true⟩

namespace Mac

/-- `CONFIG_KEY_AUTOSTART CONFIG_ASSIGN`, the `tokenAutoStart` of
`cfg_load`. -/
def tokenAutoStart : List Char := "autostart=".data

/-- `CONFIG_KEY_BACKEND CONFIG_ASSIGN`, the `tokenBackend` of `cfg_load`. -/
def tokenBackend : List Char := "backend=".data

/-- `CONFIG_VALUE_TRUE` (Mac). -/
def CONFIG_VALUE_TRUE : List Char := "TRUE".data

/-- One line of the `cfg_load` read loop (Mac): the line is matched with
`strncmp` against the key tokens, and on a match the value that follows the
token is compared with `strncmp(value, "TRUE", strlen("TRUE"))` — a
case-sensitive four-character comparison. -/
def cfg_line_step (cfg : SHLaunchConfig) (ln : List Char) : SHLaunchConfig :=
  if strncmp_is0 tokenAutoStart.length ln tokenAutoStart then
    { cfg with autoStart :=
        (strncmp_is0 CONFIG_VALUE_TRUE.length (ln.drop tokenAutoStart.length)
          CONFIG_VALUE_TRUE) }
  else if strncmp_is0 tokenBackend.length ln tokenBackend then
    { cfg with backend :=
        (strncmp_is0 CONFIG_VALUE_TRUE.length (ln.drop tokenBackend.length)
          CONFIG_VALUE_TRUE) }
  else cfg

/-- `cfg_load` (Mac) applied to the lines `fgets` yields from the config
file: starts at `_cfgDefault` and folds the per-line step over the file. -/
def cfg_load (lines : List (List Char)) : SHLaunchConfig :=
  lines.foldl cfg_line_step cfgDefault

/-- `launch_backend` (Mac), exposing both the local variable `result` and
the value actually returned.  Inputs model the environment: whether the
`malloc` of the environment array succeeds, and what `fork()` returns to the
parent (`> 0` child PID, `< 0` failure; `0` is the child side, which never
returns to this caller).  The C function initialises `result = RET_ERROR`,
sets `result = RET_SUCCESS` only when `fork` returns a positive PID — and
then every path falls through to `cleanup:` which executes
`return RET_SUCCESS`, discarding `result`. -/
def launch_backend_run (mallocOk : Bool) (forkResult : Int) : Int × Int :=
  if !mallocOk then (RET_ERROR, RET_SUCCESS)
  else if 0 < forkResult then (RET_SUCCESS, RET_SUCCESS)
  else (RET_ERROR, RET_SUCCESS)

/-- The value `launch_backend` (Mac) returns to `main`. -/
def launch_backend (mallocOk : Bool) (forkResult : Int) : Int :=
  (launch_backend_run mallocOk forkResult).2

/-- The value `main` (Mac) swaps into `exchange->status` after a permitted
launch: `__sync_swap(&shl->exchange->status, status ? 0 : 1)` where `status`
is the `launch_backend` return value. -/
def status_written (launchRet : Int) : Nat :=
  if launchRet ≠ 0 then 0 else 1

/-- One iteration of the Mac service loop in `main`, restricted to its
effect on the Exchange (no concurrent writers): `cycles` is incremented;
if the launch word observed at the end of the previous iteration (`obs`) has
`LAUNCH_FLAG_KILL_FIRST` set, the old processes are killed and the bit is
cleared in the Exchange with `__sync_fetch_and_and(&launch, ~flag)`;
if `obs` has low bits set, the configuration is reloaded and — only when
`cfg.backend` permits — `launch_backend` runs and its result is swapped into
`status`; permitted or not, the low bits are then cleared with
`__sync_fetch_and_and(&launch, ~LAUNCH_MASK)`. -/
def main_loop_iter (cfgBackend mallocOk : Bool) (forkResult : Int)
    (obs : Nat) (e : Exch) : Exch :=
  let e1 := { e with cycles := e.cycles + 1 }
  let e2 :=
    if obs &&& LAUNCH_FLAG_KILL_FIRST ≠ 0 then
      { e1 with launch := e1.launch &&& not32 LAUNCH_FLAG_KILL_FIRST }
    else e1
  if obs &&& LAUNCH_MASK ≠ 0 then
    let e3 :=
      if cfgBackend then
        { e2 with status := status_written (launch_backend mallocOk forkResult) }
      else e2
    { e3 with launch := e3.launch &&& not32 LAUNCH_MASK }
  else e2

/-- The statement the Mac `main` executes right after the service loop ends:
`__sync_swap(&shl->exchange->shutdown, 1)`. -/
def main_post_loop_shutdown (e : Exch) : Exch :=
  { e with shutdown := 1 }

/-- Per-iteration environment for the loop-exit model: whether
`access(argv[0], F_OK)` still finds the executable, and whether the
`terminate` flag was raised by the signal handler. -/
structure LoopEnv where
  exePresent : Bool
  terminate : Bool
deriving DecidableEq, Repr

/-- Why the Mac service loop in `main` ended. -/
inductive ExitReason where
  | terminated
  | exeGone
  | budget
deriving DecidableEq, Repr

/-- The Mac service loop in `main`, projected to its exit behaviour: the
`while (!shl->terminate)` condition is checked first; inside the body, if
`access(argv[0], F_OK)` fails the service unlinks `PLIST_PATH` and breaks.
The Bool result records whether the plist was unlinked; an exhausted
environment list is a run that keeps looping past the modelled horizon. -/
def main_loop_exit : List LoopEnv → ExitReason × Bool
  | [] => (.budget, false)
  | env :: rest =>
    if env.terminate then (.terminated, false)
    else if !env.exePresent then (.exeGone, true)
    else main_loop_exit rest

/-- The argument checks at the top of the Mac `main`, before the signal
handler is installed and before any kill, `setuid` or `exchange_open` call:
with no argument (`argc < 2`) it returns `RET_ARGS_ERROR`; when
`strcmp(argv[1], SHLAUNCH_BUILD)` differs it returns `RET_BUILD_MISMATCH`.
`args` is `argv[1:]`; `some code` is an immediate exit, `none` means `main`
proceeds to the later phases. -/
def main_arg_check (build : String) (args : List String) : Option Int :=
  match args with
  | [] => some RET_ARGS_ERROR
  | a :: _ => if a = build then none else some RET_BUILD_MISMATCH

end Mac

namespace Win

/-- Exit code `EXITCODE_SUCCESS` (Win). -/
def EXITCODE_SUCCESS : Int := 0

/-- Exit code `EXITCODE_BAD_ARGS` (Win). -/
def EXITCODE_BAD_ARGS : Int := 1

/-- `KILL_CANDIDATES_ALL` (Win): every executable name the service may have
to terminate (NULL terminator dropped). -/
def KILL_CANDIDATES_ALL : List String :=
  [ "shlaunch.exe", "Sighthound Agent.exe", "Sighthound Video.exe",
    "Sighthound USB.exe", "Sighthound Web.exe", "Sighthound XNAT.exe",
    "SighthoundXNAT.exe"]

/-- `KILL_CANDIDATES` (Win): `&KILL_CANDIDATES_ALL[1]`, the backend-family
names. -/
def KILL_CANDIDATES : List String := KILL_CANDIDATES_ALL.tail

/-- `BACKEND_EXE` (Win). -/
def BACKEND_EXE : String := "Sighthound Agent.exe"

/-- One process as seen by `enumerate_processes` (Win): PID and executable
base name.  The list passed to the models below stands for the processes the
enumeration can open and name (inaccessible ones are skipped by the C code
and are simply absent here). -/
structure WProc where
  pid : Nat
  exe : String
deriving DecidableEq, Repr

/-- The candidate-name scan of `kill_handler` (Win): `_tcsicmp` of the
executable name against each kill candidate. -/
def kill_handler_matches (candidates : List String) (exe : String) : Bool :=
  candidates.any (fun c => tcsicmp_is0 c.data exe.data)

/-- `kill_processes` (Win), projected to the PIDs that get
`TerminateProcess`: `enumerate_processes` skips PID 0 (the system idle
process); `kill_handler` then returns early when the PID equals
`GetCurrentProcessId()` or the `noKillPid` of the `KillContext`, and
otherwise terminates the process when its name matches a candidate. -/
def kill_processes (curPid noKillPid : Nat) (candidates : List String) :
    List WProc → List Nat
  | [] => []
  | p :: rest =>
    if p.pid = 0 then kill_processes curPid noKillPid candidates rest
    else if p.pid = curPid ∨ p.pid = noKillPid then
      kill_processes curPid noKillPid candidates rest
    else if kill_handler_matches candidates p.exe then
      p.pid :: kill_processes curPid noKillPid candidates rest
    else kill_processes curPid noKillPid candidates rest

/-- The `enumerate_processes(backend_detect_handler, &count, 0)` run (Win):
counts processes whose name is `BACKEND_EXE` under `_tcsicmp`, skipping
PID 0. -/
def backend_detect_count : List WProc → Nat
  | [] => 0
  | p :: rest =>
    (if p.pid ≠ 0 && tcsicmp_is0 BACKEND_EXE.data p.exe.data then 1 else 0) +
      backend_detect_count rest

/-- `config_read` (Win): `GetPrivateProfileString` fetches the `autostart`
key (default `"FALSE"`) and the `backend` key (default `"TRUE"`) and each
value is compared with `_tcsicmp` against `"TRUE"`.  The inputs are the
values present in the INI file, `none` when the key is missing. -/
def config_read (autostartVal backendVal : Option (List Char)) : SHLaunchConfig :=
  { autoStart := tcsicmp_is0 "TRUE".data (autostartVal.getD "FALSE".data),
    backend := tcsicmp_is0 "TRUE".data (backendVal.getD "TRUE".data) }

/-- One iteration of the Win service loop in `svc_main`, restricted to its
effect on the Exchange (no concurrent writers): the whole launch word is
consumed at the top with `InterlockedExchange(&exchange->launch, 0)`,
`cycles` is incremented, the word is handled (kill / spawn), and finally
`InterlockedExchange(&exchange->status, status)` stores the handled word
(`status = launch` when it was non-zero, else 0). -/
def svc_main_iter (e : Exch) : Exch :=
  let w := e.launch
  let e1 := { e with launch := 0 }
  let e2 := { e1 with cycles := e1.cycles + 1 }
  { e2 with status := w }

/-- What `svc_main` (Win) does to the `shutdown` field after its loop ends:
it first counts backend processes, and only when at least one is running
does it execute `_ctx->exchange->shutdown = 1` (afterwards it only reads the
field while waiting). -/
def svc_post_loop_shutdown (backendCount : Nat) (e : Exch) : Exch :=
  if backendCount = 0 then e else { e with shutdown := 1 }

/-- The loop-exit condition of `svc_main` (Win): the loop breaks exactly
when `WaitForSingleObject(ctx->evtExit, POLL_MILLIS)` does not time out,
i.e. when the exit event was signalled; nothing in the loop looks at the
service executable on disk. -/
def svc_loop_breaks (_exePresent evtExitSignaled : Bool) : Bool :=
  evtExitSignaled

/-- The argument loop of `_tmain` (Win) over `argv[1:]`: arguments starting
with `--` are skipped; `remove` / `shutdown` / `install` / `start` run the
corresponding service operation (whose exit code, determined by the system
state, is supplied by `svc`) and the loop continues while that code is 0;
any other argument logs `unknown command` and exits with
`EXITCODE_BAD_ARGS`.  No build tag is ever compared. -/
def tmain_args (svc : String → Int) : List String → Int
  | [] => EXITCODE_SUCCESS
  | cmd :: rest =>
    if strncmp_is0 2 "--".data cmd.data then tmain_args svc rest
    else if cmd = "remove" ∨ cmd = "shutdown" ∨ cmd = "install" ∨ cmd = "start" then
      (if svc cmd = 0 then tmain_args svc rest else svc cmd)
    else EXITCODE_BAD_ARGS

end Win

/-! ## Concrete fixtures -/

/-- A zeroed Exchange, the state `ZeroMemory` (Win) leaves and a convenient
base state for the Mac side. -/
def exch0 : Exch := ⟨0, 0, 0, 0, 0, 0, 0⟩

/-- An Exchange exactly as an initialised-but-dead Mac supervisor leaves it:
`size` already holds `sizeof(struct Exchange)` while `cycles` is stuck. -/
def exchReady : Exch := { exch0 with size := sizeofExchange_mac, cycles := 7 }

/-- An Exchange whose launch word has bit 17 plus all low launch-code bits
set (`0x2ffff`). -/
def exchHighBits : Exch := { exch0 with launch := 0x2ffff }

/-- A process table holding one backend process (Win). -/
def wprocsBackend : List Win.WProc := [⟨5, "Sighthound Agent.exe"⟩]

/-- 257 Sighthound-named processes, one more than `MAX_PROCESSES` (Mac). -/
def procs257 : List Mac.KProc := List.replicate 257 ⟨0, 1, 2, "shlaunch"⟩

/-! ## Helper lemmas -/

lemma land_zero_right (x : Nat) : x &&& 0 = 0 := by
  apply Nat.eq_of_testBit_eq
  intro i
  simp [Nat.testBit_land]

lemma land_land_zero (x : Nat) {a b : Nat} (h : a &&& b = 0) :
    x &&& a &&& b = 0 := by
  rw [Nat.land_assoc, h, land_zero_right]

lemma land_land_absorb (x : Nat) {a b : Nat} (h : a &&& b = b) :
    x &&& a &&& b = x &&& b := by
  rw [Nat.land_assoc, h]

/-- The launch word after one Mac service-loop iteration: the `status` write
never touches it, and the two atomic AND-NOT statements fire exactly when
the corresponding bits were observed. -/
lemma main_loop_iter_launch (b mOk : Bool) (r : Int) (obs : Nat) (e : Exch) :
    (Mac.main_loop_iter b mOk r obs e).launch =
      (if obs &&& LAUNCH_MASK ≠ 0 then
        (if obs &&& LAUNCH_FLAG_KILL_FIRST ≠ 0 then
          e.launch &&& not32 LAUNCH_FLAG_KILL_FIRST
        else e.launch) &&& not32 LAUNCH_MASK
      else
        (if obs &&& LAUNCH_FLAG_KILL_FIRST ≠ 0 then
          e.launch &&& not32 LAUNCH_FLAG_KILL_FIRST
        else e.launch)) := by
  unfold Mac.main_loop_iter
  split_ifs <;> rfl

/-! ## Claims -/

/-- C1 (code bug): the Mac `launch_backend` is documented to return zero on
success and an error otherwise, but every control path ends at the
`cleanup:` label and executes `return RET_SUCCESS`, discarding the local
`result` that tracked the `fork` failure; consequently the service-loop
write `__sync_swap(&status, status ? 0 : 1)` stores 1 in the Exchange even
when the spawn call failed (`fork() == -1`). -/
theorem c1_status_one_even_on_spawn_failure :
    Mac.launch_backend true (-1) = Mac.RET_SUCCESS
    ∧ (Mac.launch_backend_run true (-1)).1 = Mac.RET_ERROR
    ∧ (Mac.main_loop_iter true true (-1) 0x0001 exch0).status = 1 := by
  decide

/-- C2 (code bug): the attach loop of `launch_open` keeps waiting only
while `size` differs from `sizeof(struct Exchange)` AND `cycles` is
unchanged, so a first poll that already sees a matching `size` returns a
handle although the `cycles` counter never advanced from the first-observed
value — contradicting the comment `must change, to prove activity` and the
claimed conjunction. -/
theorem c2_open_succeeds_without_cycles_advance :
    launch_open_poll sizeofExchange_mac 7 [exchReady] = true
    ∧ exchReady.size = sizeofExchange_mac
    ∧ ([exchReady].all fun o => o.cycles == 7) = true := by
  decide

/-- C9 (code bug): the Mac `exchange_open` sizes the region with
`sizeof(struct Exchange)` (4261 bytes), but the Win `svc_main` passes
`sizeof(exchange)` — the size of the `struct Exchange*` pointer, 4 bytes in
the 32-bit build — to `CreateFileMapping` instead of the 548-byte packed
structure. -/
theorem c9_create_region_size :
    mac_shmget_size = sizeofExchange_mac
    ∧ sizeofExchange_mac = 4261
    ∧ win_CreateFileMapping_size = 4
    ∧ sizeofExchange_win = 548
    ∧ win_CreateFileMapping_size ≠ sizeofExchange_win := by
  decide

/-- C3 counterexample: the Windows `kill_handler` excludes only the current
PID and the `noKillPid`; with supervisor PID 10, excluded source PID 20 and
the parent of the supervisor being PID 30 and running a backend-named
executable, the parent receives the terminate signal. -/
theorem c3_cex_win_parent_killed :
    Win.kill_processes 10 20 Win.KILL_CANDIDATES [⟨30, "Sighthound Agent.exe"⟩]
      = [30] := by
  decide

/-- C4 counterexample: with launch word `0x2ffff` (low bits plus bit 17),
the claimed AND-NOT clearing would leave `0x20000` in the Exchange, but the
Windows loop consumed the whole word to zero by `InterlockedExchange` at the
top of the iteration. -/
theorem c4_cex_win_swap_clears_unhandled_bits :
    (Win.svc_main_iter exchHighBits).launch = 0
    ∧ exchHighBits.launch &&& not32 (LAUNCH_FLAG_KILL_FIRST ||| LAUNCH_MASK)
        = 0x20000
    ∧ (0x20000 : Nat) ≠ 0 := by
  decide

/-- C5 counterexample: when no backend-named process is running at loop
exit, the Windows `svc_main` skips the `shutdown = 1` store entirely, so
`shutdown` never transitions to 1. -/
theorem c5_cex_win_shutdown_not_set :
    (Win.svc_post_loop_shutdown (Win.backend_detect_count []) exch0).shutdown
      = 0 := by
  decide

/-- C6 counterexample: the Windows service loop tests only the exit event;
with the executable gone and the event not signalled the loop keeps running
(while the Mac loop exits and unlinks the plist in the same situation). -/
theorem c6_cex_win_no_exe_check :
    Win.svc_loop_breaks false false = false
    ∧ Mac.main_loop_exit [⟨false, false⟩] = (.exeGone, true) := by
  decide

/-- C7 counterexample: the Windows `_tmain` performs no build-tag
comparison; a first argument that is not a subcommand (here a build tag
differing from any compiled value) exits with `EXITCODE_BAD_ARGS` (1), not
with the build-mismatch code 5. -/
theorem c7_cex_win_no_build_check :
    Win.tmain_args (fun _ => 0) [ "r99999"] = Win.EXITCODE_BAD_ARGS
    ∧ Win.EXITCODE_BAD_ARGS ≠ Mac.RET_BUILD_MISMATCH := by
  decide

/-- C8 counterexample: the Mac `cfg_load` compares the value with the
case-sensitive `strncmp(value, "TRUE", 4)`, so the lower-case value `true`
leaves `autoStart` false while `TRUE` sets it. -/
theorem c8_cex_mac_lowercase_true_ignored :
    (Mac.cfg_load [ "autostart=true".data]).autoStart = false
    ∧ (Mac.cfg_load [ "autostart=TRUE".data]).autoStart = true := by
  decide

/-- C3 (amended): on both platforms the reaper never signals the
own PID of the supervisor or the excluded source PID; the parent
PID of the supervisor (and the global `_noKillPid`) are additionally excluded on the Mac
platform only — the Windows `kill_handler` has no parent-PID test. -/
theorem c3_kill_exclusions (own par nkG nk : Int) (procs : List Mac.KProc)
    (curPid noKill : Nat) (wprocs : List Win.WProc) :
    ((Mac.kill_old_processes own par nkG nk procs).all
      (fun q => !(own == q) && !(par == q) && !(nkG == q) && !(nk == q)) = true)
    ∧ ((Win.kill_processes curPid noKill Win.KILL_CANDIDATES wprocs).all
      (fun q => !(q == curPid) && !(q == noKill)) = true) := by
  constructor
  · rw [List.all_eq_true]
    intro q hq
    simp only [Mac.kill_old_processes] at hq
    have hp := List.of_mem_filter hq
    simp only [Bool.not_eq_true', Bool.or_eq_false_iff, beq_eq_false_iff_ne] at hp
    simp [hp.1.1.1, hp.1.1.2, hp.1.2, hp.2]
  · induction wprocs with
    | nil => rfl
    | cons p rest ih =>
      unfold Win.kill_processes
      split_ifs with h0 hcn hmatch
      · exact ih
      · exact ih
      · rw [not_or] at hcn
        simp only [List.all_cons, Bool.and_eq_true]
        exact ⟨by simp [hcn.1, hcn.2], ih⟩
      · exact ih

/-- C4 (amended): the Mac service loop clears exactly the handled bits in
the Exchange with atomic AND-NOT — the kill-first bit when it was observed,
the low 16 bits when a launch code was observed, independent of whether the
configuration permitted the launch — and leaves all other bits untouched;
the Windows loop instead consumes the entire launch word with an atomic
swap to zero at the top of the iteration (storing the consumed word into
`status`). -/
theorem c4_launch_word_clearing (b mOk : Bool) (r : Int) (obs : Nat) (e : Exch) :
    (Mac.main_loop_iter b mOk r obs e).launch
        = (Mac.main_loop_iter true mOk r obs e).launch
    ∧ (obs &&& LAUNCH_FLAG_KILL_FIRST ≠ 0 →
        (Mac.main_loop_iter b mOk r obs e).launch &&& LAUNCH_FLAG_KILL_FIRST = 0)
    ∧ (obs &&& LAUNCH_MASK ≠ 0 →
        (Mac.main_loop_iter b mOk r obs e).launch &&& LAUNCH_MASK = 0)
    ∧ (obs &&& LAUNCH_FLAG_KILL_FIRST = 0 → obs &&& LAUNCH_MASK = 0 →
        (Mac.main_loop_iter b mOk r obs e).launch = e.launch)
    ∧ ((Mac.main_loop_iter b mOk r obs e).launch
          &&& not32 (LAUNCH_FLAG_KILL_FIRST ||| LAUNCH_MASK)
        = e.launch &&& not32 (LAUNCH_FLAG_KILL_FIRST ||| LAUNCH_MASK))
    ∧ (Win.svc_main_iter e).launch = 0 := by
  refine ⟨?_, ?_, ?_, ?_, ?_, rfl⟩
  · rw [main_loop_iter_launch, main_loop_iter_launch]
  · intro hk
    rw [main_loop_iter_launch]
    by_cases hl : obs &&& LAUNCH_MASK ≠ 0
    · rw [if_pos hl, if_pos hk]
      rw [land_land_absorb (e.launch &&& not32 LAUNCH_FLAG_KILL_FIRST)
        (show not32 LAUNCH_MASK &&& LAUNCH_FLAG_KILL_FIRST
          = LAUNCH_FLAG_KILL_FIRST from by decide)]
      exact land_land_zero e.launch (by decide)
    · rw [if_neg hl, if_pos hk]
      exact land_land_zero e.launch (by decide)
  · intro hl
    rw [main_loop_iter_launch, if_pos hl]
    by_cases hk : obs &&& LAUNCH_FLAG_KILL_FIRST ≠ 0
    · rw [if_pos hk]
      exact land_land_zero (e.launch &&& not32 LAUNCH_FLAG_KILL_FIRST) (by decide)
    · rw [if_neg hk]
      exact land_land_zero e.launch (by decide)
  · intro hk hl
    rw [main_loop_iter_launch, if_neg (by simp [hl]), if_neg (by simp [hk])]
  · rw [main_loop_iter_launch]
    by_cases hl : obs &&& LAUNCH_MASK ≠ 0 <;>
      by_cases hk : obs &&& LAUNCH_FLAG_KILL_FIRST ≠ 0
    · rw [if_pos hl, if_pos hk]
      rw [land_land_absorb (e.launch &&& not32 LAUNCH_FLAG_KILL_FIRST)
        (show not32 LAUNCH_MASK &&& not32 (LAUNCH_FLAG_KILL_FIRST ||| LAUNCH_MASK)
          = not32 (LAUNCH_FLAG_KILL_FIRST ||| LAUNCH_MASK) from by decide)]
      exact land_land_absorb e.launch (by decide)
    · rw [if_pos hl, if_neg hk]
      exact land_land_absorb e.launch (by decide)
    · rw [if_neg hl, if_pos hk]
      exact land_land_absorb e.launch (by decide)
    · rw [if_neg hl, if_neg hk]

/-- Witness for `c4_launch_word_clearing` at a concrete state: an observed
word with both the kill bit and low bits set is cleared from the Exchange
word `0x1ffff`. -/
theorem c4_launch_word_clearing_witness :
    (Mac.main_loop_iter false true 1 0x1ffff
        { exch0 with launch := 0x1ffff }).launch &&& LAUNCH_FLAG_KILL_FIRST = 0
    ∧ (Mac.main_loop_iter false true 1 0x1ffff
        { exch0 with launch := 0x1ffff }).launch &&& LAUNCH_MASK = 0 := by
  have h := c4_launch_word_clearing false true 1 0x1ffff
    { exch0 with launch := 0x1ffff }
  exact ⟨h.2.1 (by decide), h.2.2.1 (by decide)⟩

/-- C5 (amended): after the loop ends the Mac supervisor unconditionally
swaps `shutdown` to 1; the Windows supervisor stores 1 only when at least
one backend-named process is detected and otherwise leaves the field
untouched; neither supervisor ever writes `shutdown` back to 0 (the field
only keeps its old value or becomes 1). -/
theorem c5_shutdown_write (e : Exch) (procs : List Win.WProc) :
    (Mac.main_post_loop_shutdown e).shutdown = 1
    ∧ ((Win.svc_post_loop_shutdown (Win.backend_detect_count procs) e).shutdown = 1
        ∨ (Win.svc_post_loop_shutdown (Win.backend_detect_count procs) e).shutdown
            = e.shutdown)
    ∧ (0 < Win.backend_detect_count procs →
        (Win.svc_post_loop_shutdown (Win.backend_detect_count procs) e).shutdown
          = 1) := by
  refine ⟨rfl, ?_, ?_⟩
  · unfold Win.svc_post_loop_shutdown
    by_cases h : Win.backend_detect_count procs = 0
    · rw [if_pos h]
      exact Or.inr rfl
    · rw [if_neg h]
      exact Or.inl rfl
  · intro h
    unfold Win.svc_post_loop_shutdown
    rw [if_neg (by omega)]

/-- Witness for `c5_shutdown_write`: with one backend process running, the
Windows supervisor does set `shutdown` to 1. -/
theorem c5_shutdown_write_witness :
    (Win.svc_post_loop_shutdown (Win.backend_detect_count wprocsBackend)
        exch0).shutdown = 1 :=
  (c5_shutdown_write exch0 wprocsBackend).2.2 (by decide)

/-- C6 (amended): on the Mac build, as soon as an iteration finds the
executable gone (and the terminate flag was not raised first), the loop
breaks with the plist unlinked, whatever would have followed; the Windows
break condition of the loop is the exit event alone and ignores whether
the executable is present. -/
theorem c6_exe_liveness (pre rest : List Mac.LoopEnv) (e ev : Bool)
    (h : pre.all (fun v => v.exePresent && !v.terminate) = true) :
    Mac.main_loop_exit (pre ++ ⟨false, false⟩ :: rest) = (.exeGone, true)
    ∧ Win.svc_loop_breaks e ev = ev := by
  refine ⟨?_, rfl⟩
  induction pre with
  | nil => rfl
  | cons v tl ih =>
    rw [List.all_cons, Bool.and_eq_true] at h
    obtain ⟨hv, htl⟩ := h
    rw [Bool.and_eq_true] at hv
    have hterm : v.terminate = false := by
      cases hvt : v.terminate
      · rfl
      · rw [hvt] at hv
        exact absurd hv.2 (by decide)
    show Mac.main_loop_exit (v :: (tl ++ ⟨false, false⟩ :: rest)) = (.exeGone, true)
    unfold Mac.main_loop_exit
    rw [if_neg (by simp [hterm]), if_neg (by simp [hv.1])]
    exact ih htl

/-- Witness for `c6_exe_liveness`: one healthy iteration, then the
executable disappears and the loop exits with the plist removed. -/
theorem c6_exe_liveness_witness :
    Mac.main_loop_exit ([⟨true, false⟩] ++ ⟨false, false⟩ :: []) = (.exeGone, true)
    ∧ Win.svc_loop_breaks true false = false :=
  c6_exe_liveness [⟨true, false⟩] [] true false (by decide)

/-- C7 (amended): on the Mac build any present first argument that differs
from the compiled build tag makes `main` return `RET_BUILD_MISMATCH` (5)
before the signal handler, the initial kill, `setuid` and `exchange_open`;
the Windows `_tmain` performs no build-tag handshake at all — its arguments
are subcommands, and a non-option argument that is not one of them exits
with `EXITCODE_BAD_ARGS` (1). -/
theorem c7_build_tag_check (build : String) (args : List String) (a : String)
    (svc : String → Int) (cmd : String) (rest : List String)
    (hhead : args.head? = some a) (hne : a ≠ build)
    (hdash : strncmp_is0 2 "--".data cmd.data = false)
    (h1 : cmd ≠ "remove") (h2 : cmd ≠ "shutdown")
    (h3 : cmd ≠ "install") (h4 : cmd ≠ "start") :
    Mac.main_arg_check build args = some Mac.RET_BUILD_MISMATCH
    ∧ Win.tmain_args svc (cmd :: rest) = Win.EXITCODE_BAD_ARGS := by
  constructor
  · cases args with
    | nil => exact absurd hhead (by simp)
    | cons x xs =>
      rw [List.head?] at hhead
      injection hhead with hx
      subst hx
      simp [Mac.main_arg_check, hne]
  · unfold Win.tmain_args
    rw [hdash]
    simp [h1, h2, h3, h4]

/-- Witness for `c7_build_tag_check`: the tag `r99999` against a compiled
build `r00000` on Mac, and a non-subcommand first argument on Windows. -/
theorem c7_build_tag_check_witness :
    Mac.main_arg_check "r00000" [ "r99999"] = some Mac.RET_BUILD_MISMATCH
    ∧ Win.tmain_args (fun _ => 0) [ "whatever"] = Win.EXITCODE_BAD_ARGS :=
  c7_build_tag_check "r00000" [ "r99999"] "r99999" (fun _ => 0) "whatever" []
    (by decide) (by decide) (by decide) (by decide) (by decide) (by decide)
    (by decide)

lemma list_char_beq_symm (a b : List Char) : (a == b) = (b == a) := by
  by_cases h : a = b
  · subst h
    rfl
  · have h' : b ≠ a := fun hh => h hh.symm
    rw [beq_eq_false_iff_ne.mpr h, beq_eq_false_iff_ne.mpr h']

/-- C8 (amended): the Mac `cfg_load` sets a key from the case-sensitive
prefix comparison `strncmp(value, "TRUE", 4)` — only values whose first four
characters are exactly `TRUE` count as true — while the Windows
`config_read` compares the whole value case-insensitively against `TRUE`
(`_tcsicmp`), so there any casing of `true` works. -/
theorem c8_true_comparison (v : List Char) :
    (Mac.cfg_load [Mac.tokenAutoStart ++ v]).autoStart
        = strncmp_is0 Mac.CONFIG_VALUE_TRUE.length v Mac.CONFIG_VALUE_TRUE
    ∧ (Mac.cfg_load [Mac.tokenBackend ++ v]).backend
        = strncmp_is0 Mac.CONFIG_VALUE_TRUE.length v Mac.CONFIG_VALUE_TRUE
    ∧ (Win.config_read (some v) none).autoStart = tcsicmp_is0 "TRUE".data v
    ∧ (Win.config_read none (some v)).backend = tcsicmp_is0 "TRUE".data v
    ∧ tcsicmp_is0 "TRUE".data v = (v.map asciiLower == "true".data) := by
  refine ⟨rfl, rfl, rfl, rfl, ?_⟩
  show ("TRUE".data.map asciiLower == v.map asciiLower)
      = (v.map asciiLower == "true".data)
  rw [show "TRUE".data.map asciiLower = "true".data from rfl]
  exact list_char_beq_symm _ _

/-- The PID list recorded by a `find_handler` enumeration: the accumulator
followed by the next Sighthound PIDs up to the remaining capacity. -/
lemma find_handler_run_fst (procs : List Mac.KProc) :
    ∀ acc : List Int, acc.length ≤ Mac.MAX_PROCESSES →
    (Mac.find_handler_run procs acc).1 =
      acc ++ (Mac.svPids procs).take (Mac.MAX_PROCESSES - acc.length) := by
  induction procs with
  | nil =>
    intro acc h
    simp [Mac.find_handler_run, Mac.svPids]
  | cons p rest ih =>
    intro acc h
    by_cases hsv : Mac.is_sv_process p.comm
    · by_cases hlen : acc.length < Mac.MAX_PROCESSES
      · rw [show Mac.find_handler_run (p :: rest) acc
            = Mac.find_handler_run rest (acc ++ [p.pid]) from by
          simp [Mac.find_handler_run, hsv, hlen]]
        rw [ih (acc ++ [p.pid]) (by simp only [List.length_append]; simp; omega)]
        rw [show Mac.svPids (p :: rest) = p.pid :: Mac.svPids rest from by
          simp [Mac.svPids, hsv]]
        obtain ⟨k, hk⟩ : ∃ k, Mac.MAX_PROCESSES - acc.length = k + 1 :=
          ⟨Mac.MAX_PROCESSES - acc.length - 1, by omega⟩
        rw [hk, List.take_succ_cons]
        rw [show Mac.MAX_PROCESSES - (acc ++ [p.pid]).length = k from by
          simp only [List.length_append, List.length_cons, List.length_nil]
          omega]
        rw [List.append_assoc]
        rfl
      · have heq : acc.length = Mac.MAX_PROCESSES := by omega
        rw [show Mac.find_handler_run (p :: rest) acc = (acc, -2) from by
          simp [Mac.find_handler_run, hsv, hlen]]
        simp [heq]
    · rw [show Mac.find_handler_run (p :: rest) acc
          = Mac.find_handler_run rest acc from by
        simp [Mac.find_handler_run, hsv]]
      rw [ih acc h]
      rw [show Mac.svPids (p :: rest) = Mac.svPids rest from by
        simp [Mac.svPids, hsv]]

/-- The value the `find_handler` enumeration returns: `-2` exactly when the
Sighthound processes outnumber the remaining capacity. -/
lemma find_handler_run_snd (procs : List Mac.KProc) :
    ∀ acc : List Int, acc.length ≤ Mac.MAX_PROCESSES →
    (Mac.find_handler_run procs acc).2 =
      (if Mac.MAX_PROCESSES < acc.length + (Mac.svPids procs).length
        then -2 else 0) := by
  induction procs with
  | nil =>
    intro acc h
    rw [show Mac.find_handler_run [] acc = (acc, 0) from rfl]
    rw [show Mac.svPids [] = [] from rfl]
    rw [if_neg (by simp; omega)]
  | cons p rest ih =>
    intro acc h
    by_cases hsv : Mac.is_sv_process p.comm
    · rw [show Mac.svPids (p :: rest) = p.pid :: Mac.svPids rest from by
        simp [Mac.svPids, hsv]]
      by_cases hlen : acc.length < Mac.MAX_PROCESSES
      · rw [show Mac.find_handler_run (p :: rest) acc
            = Mac.find_handler_run rest (acc ++ [p.pid]) from by
          simp [Mac.find_handler_run, hsv, hlen]]
        rw [ih (acc ++ [p.pid]) (by simp only [List.length_append]; simp; omega)]
        refine if_congr ?_ rfl rfl
        simp only [List.length_append, List.length_cons, List.length_nil]
        omega
      · rw [show Mac.find_handler_run (p :: rest) acc = (acc, -2) from by
          simp [Mac.find_handler_run, hsv, hlen]]
        rw [if_pos (by simp only [List.length_cons]; omega)]
    · rw [show Mac.find_handler_run (p :: rest) acc
          = Mac.find_handler_run rest acc from by
        simp [Mac.find_handler_run, hsv]]
      rw [ih acc h]
      rw [show Mac.svPids (p :: rest) = Mac.svPids rest from by
        simp [Mac.svPids, hsv]]

/-- C10: one Mac kill pass records at most `MAX_PROCESSES` (256) PIDs; when
the Sighthound-named processes outnumber the cap the enumeration aborts
with `-2` and exactly the first 256 of them were recorded; every PID
signalled by `kill_old_processes` comes from those first 256, so processes
beyond the cap are neither counted nor signalled in that pass. -/
theorem c10_find_cap (procs : List Mac.KProc) (own par nkG nk : Int) :
    (Mac.find_handler_run procs []).1.length ≤ Mac.MAX_PROCESSES
    ∧ (Mac.MAX_PROCESSES < (Mac.svPids procs).length →
        (Mac.find_handler_run procs []).2 = -2
        ∧ (Mac.find_handler_run procs []).1
            = (Mac.svPids procs).take Mac.MAX_PROCESSES)
    ∧ ((Mac.kill_old_processes own par nkG nk procs).all
        (fun q => ((Mac.svPids procs).take Mac.MAX_PROCESSES).contains q)
          = true) := by
  have hfst := find_handler_run_fst procs [] (by simp)
  simp only [List.nil_append, List.length_nil, Nat.sub_zero] at hfst
  refine ⟨?_, ?_, ?_⟩
  · rw [hfst]
    simp [List.length_take]
  · intro hover
    refine ⟨?_, hfst⟩
    rw [find_handler_run_snd procs [] (by simp)]
    rw [if_pos (by simpa using hover)]
  · rw [List.all_eq_true]
    intro q hq
    simp only [Mac.kill_old_processes] at hq
    have hmem : q ∈ ((Mac.find_handler_run procs []).1.mergeSort
        (fun a b => a ≤ b)) := (List.mem_filter.mp hq).1
    rw [List.mem_mergeSort] at hmem
    rw [hfst] at hmem
    simpa using hmem

set_option maxRecDepth 4096 in
/-- Witness for `c10_find_cap`: with 257 Sighthound-named processes the
enumeration aborts with `-2` and records exactly the first 256 PIDs. -/
theorem c10_find_cap_witness :
    (Mac.find_handler_run procs257 []).2 = -2
    ∧ (Mac.find_handler_run procs257 []).1
        = (Mac.svPids procs257).take Mac.MAX_PROCESSES :=
  (c10_find_cap procs257 0 0 0 0).2.1 (by decide)
